import Mathlib

/-!
Shallow embedding of the oracle-core decision core:
configuration (de)serialization and network-consistency validation
(src/core/src/serde.rs), the epoch decision engine (src/core/src/state.rs)
and the transaction confirmation watcher (src/core/src/explorer_api.rs).

Machine integers (u32) are modelled as Nat with explicit wrapping
(mod 2^32) where the source performs u32 arithmetic that can wrap;
release-profile Rust semantics (overflow checks off, two's-complement
wrapping) is the modelled semantics.
-/

deriving instance DecidableEq for Except

/-- Models ergo-lib NetworkPrefix: the tag distinguishing mainnet from
testnet address encodings (spec section 3). -/
inductive Network
  | mainnet
  | testnet
deriving DecidableEq, Repr

/-- Models ergo-lib Address: an opaque validated script address; the
script content is abstracted to a Nat token. -/
structure Address where
  script : Nat
deriving DecidableEq, Repr

/-- Models ergo-lib NetworkAddress: an address paired with the network
tag it was decoded under. -/
structure NetworkAddress where
  address : Address
  network : Network
deriving DecidableEq, Repr

/-- Models ergo-lib AddressEncoderError: decode failure of an address
string, or a network mismatch in a checked parse. -/
inductive AddressEncoderError
  | cannotParse (tag : Nat)
  | invalidNetwork
deriving DecidableEq, Repr

/-- A serialized address string: either garbage that fails to decode, or
the encoding of an address under some network tag.  This abstracts the
base58 text form used by ergo-lib: encoding is injective and embeds the
network tag, decoding recovers both. -/
inductive AddrStr
  | malformed (tag : Nat)
  | encoded (a : NetworkAddress)
deriving DecidableEq, Repr

/-- True exactly on address strings that fail to decode. -/
def AddrStr.isMalformed : AddrStr → Bool
  | .malformed _ => true
  | .encoded _ => false

/-- Models AddressEncoder::unchecked_parse_network_address_from_str:
decode an address string, recovering the embedded network tag, with no
network check. -/
def unchecked_parse_network_address_from_str :
    AddrStr → Except AddressEncoderError NetworkAddress
  | .malformed t => .error (.cannotParse t)
  | .encoded a => .ok a

/-- Models AddressEncoder::new(net).address_to_str: total re-encoding of
an address under the encoder's network tag. -/
def address_to_str (net : Network) (a : Address) : AddrStr :=
  .encoded ⟨a, net⟩

/-- Models AddressEncoder::new(net).parse_address_from_str: decode an
address string and require its embedded network tag to equal the
encoder's; a mismatch is an error. -/
def parse_address_from_str (net : Network) :
    AddrStr → Except AddressEncoderError Address
  | .malformed t => .error (.cannotParse t)
  | .encoded a => if a.network = net then .ok a.address else .error .invalidNetwork

/-- Models SerdeConversionError (serde.rs lines 51-57). -/
inductive SerdeConversionError
  | addressEncoder (e : AddressEncoderError)
  | networkPrefixesDiffer
deriving DecidableEq, Repr

/-! ## Contract parameter bundles (serde.rs lines 282-473) -/

structure OracleContractParametersSerde where
  p2s : AddrStr
  pool_nft_index : Nat
deriving DecidableEq, Repr

structure OracleContractParameters where
  p2s : Address
  pool_nft_index : Nat
deriving DecidableEq, Repr

structure PoolContractParametersSerde where
  p2s : AddrStr
  refresh_nft_index : Nat
  update_nft_index : Nat
deriving DecidableEq, Repr

structure PoolContractParameters where
  p2s : Address
  refresh_nft_index : Nat
  update_nft_index : Nat
deriving DecidableEq, Repr

structure RefreshContractParametersSerde where
  p2s : AddrStr
  pool_nft_index : Nat
  oracle_token_id_index : Nat
  min_data_points_index : Nat
  min_data_points : Nat
  buffer_index : Nat
  buffer_length : Nat
  max_deviation_percent_index : Nat
  max_deviation_percent : Nat
  epoch_length_index : Nat
  epoch_length : Nat
deriving DecidableEq, Repr

structure RefreshContractParameters where
  p2s : Address
  pool_nft_index : Nat
  oracle_token_id_index : Nat
  min_data_points_index : Nat
  min_data_points : Nat
  buffer_index : Nat
  buffer_length : Nat
  max_deviation_percent_index : Nat
  max_deviation_percent : Nat
  epoch_length_index : Nat
  epoch_length : Nat
deriving DecidableEq, Repr

structure BallotContractParametersSerde where
  p2s : AddrStr
  min_storage_rent_index : Nat
  min_storage_rent : Nat
  update_nft_index : Nat
deriving DecidableEq, Repr

structure BallotContractParameters where
  p2s : Address
  min_storage_rent_index : Nat
  min_storage_rent : Nat
  update_nft_index : Nat
deriving DecidableEq, Repr

structure UpdateContractParametersSerde where
  p2s : AddrStr
  pool_nft_index : Nat
  ballot_token_index : Nat
  min_votes_index : Nat
  min_votes : Nat
deriving DecidableEq, Repr

structure UpdateContractParameters where
  p2s : Address
  pool_nft_index : Nat
  ballot_token_index : Nat
  min_votes_index : Nat
  min_votes : Nat
deriving DecidableEq, Repr

/-- TryFrom OracleContractParametersSerde (serde.rs lines 297-310). -/
def OracleContractParameters.try_from (c : OracleContractParametersSerde) :
    Except AddressEncoderError (OracleContractParameters × Network) := do
  let a ← unchecked_parse_network_address_from_str c.p2s
  pure ({ p2s := a.address, pool_nft_index := c.pool_nft_index }, a.network)

/-- TryFrom PoolContractParametersSerde (serde.rs lines 329-342). -/
def PoolContractParameters.try_from (c : PoolContractParametersSerde) :
    Except AddressEncoderError (PoolContractParameters × Network) := do
  let a ← unchecked_parse_network_address_from_str c.p2s
  pure ({ p2s := a.address, refresh_nft_index := c.refresh_nft_index,
          update_nft_index := c.update_nft_index }, a.network)

/-- TryFrom RefreshContractParametersSerde (serde.rs lines 377-398). -/
def RefreshContractParameters.try_from (c : RefreshContractParametersSerde) :
    Except AddressEncoderError (RefreshContractParameters × Network) := do
  let a ← unchecked_parse_network_address_from_str c.p2s
  pure ({ p2s := a.address, pool_nft_index := c.pool_nft_index,
          oracle_token_id_index := c.oracle_token_id_index,
          min_data_points_index := c.min_data_points_index,
          min_data_points := c.min_data_points,
          buffer_index := c.buffer_index, buffer_length := c.buffer_length,
          max_deviation_percent_index := c.max_deviation_percent_index,
          max_deviation_percent := c.max_deviation_percent,
          epoch_length_index := c.epoch_length_index,
          epoch_length := c.epoch_length }, a.network)

/-- TryFrom BallotContractParametersSerde (serde.rs lines 419-433). -/
def BallotContractParameters.try_from (c : BallotContractParametersSerde) :
    Except AddressEncoderError (BallotContractParameters × Network) := do
  let a ← unchecked_parse_network_address_from_str c.p2s
  pure ({ p2s := a.address, min_storage_rent_index := c.min_storage_rent_index,
          min_storage_rent := c.min_storage_rent,
          update_nft_index := c.update_nft_index }, a.network)

/-- TryFrom UpdateContractParametersSerde (serde.rs lines 445-461). -/
def UpdateContractParameters.try_from (c : UpdateContractParametersSerde) :
    Except AddressEncoderError (UpdateContractParameters × Network) := do
  let a ← unchecked_parse_network_address_from_str c.p2s
  pure ({ p2s := a.address, pool_nft_index := c.pool_nft_index,
          ballot_token_index := c.ballot_token_index,
          min_votes_index := c.min_votes_index,
          min_votes := c.min_votes }, a.network)

/-- From OracleContractParameters (serde.rs lines 288-295): note the
source re-encodes the p2s address with the hardcoded Mainnet tag. -/
def OracleContractParametersSerde.from_parameters (p : OracleContractParameters) :
    OracleContractParametersSerde :=
  { p2s := address_to_str Network.mainnet p.p2s, pool_nft_index := p.pool_nft_index }

/-- From PoolContractParameters (serde.rs lines 319-327): hardcoded Mainnet. -/
def PoolContractParametersSerde.from_parameters (p : PoolContractParameters) :
    PoolContractParametersSerde :=
  { p2s := address_to_str Network.mainnet p.p2s,
    refresh_nft_index := p.refresh_nft_index, update_nft_index := p.update_nft_index }

/-- From RefreshContractParameters (serde.rs lines 359-375): hardcoded Mainnet. -/
def RefreshContractParametersSerde.from_parameters (p : RefreshContractParameters) :
    RefreshContractParametersSerde :=
  { p2s := address_to_str Network.mainnet p.p2s, pool_nft_index := p.pool_nft_index,
    oracle_token_id_index := p.oracle_token_id_index,
    min_data_points_index := p.min_data_points_index, min_data_points := p.min_data_points,
    buffer_index := p.buffer_index, buffer_length := p.buffer_length,
    max_deviation_percent_index := p.max_deviation_percent_index,
    max_deviation_percent := p.max_deviation_percent,
    epoch_length_index := p.epoch_length_index, epoch_length := p.epoch_length }

/-- From BallotContractParameters (serde.rs lines 408-417): hardcoded Mainnet. -/
def BallotContractParametersSerde.from_parameters (c : BallotContractParameters) :
    BallotContractParametersSerde :=
  { p2s := address_to_str Network.mainnet c.p2s,
    min_storage_rent_index := c.min_storage_rent_index,
    min_storage_rent := c.min_storage_rent, update_nft_index := c.update_nft_index }

/-- From UpdateContractParameters (serde.rs lines 463-473): hardcoded Mainnet. -/
def UpdateContractParametersSerde.from_parameters (p : UpdateContractParameters) :
    UpdateContractParametersSerde :=
  { p2s := address_to_str Network.mainnet p.p2s, pool_nft_index := p.pool_nft_index,
    ballot_token_index := p.ballot_token_index,
    min_votes_index := p.min_votes_index, min_votes := p.min_votes }

/-! ## Addresses bundle and the oracle configuration (serde.rs lines 30-220, 565-571) -/

structure AddressesSerde where
  address_for_oracle_tokens : AddrStr
  wallet_address_for_chain_transaction : AddrStr
deriving DecidableEq, Repr

structure Addresses where
  address_for_oracle_tokens : Address
  wallet_address_for_chain_transaction : Address
deriving DecidableEq, Repr

/-- Models the source struct AddressesWithPrefix (serde.rs lines
185-188); the source field
holding the recovered network tag is named after that tag, here `net`. -/
structure AddressesWithNet where
  addresses : Addresses
  net : Network
deriving DecidableEq, Repr

/-- From (Addresses, NetworkPrefix) for AddressesSerde (serde.rs lines
190-201): both addresses re-encoded under the given network tag. -/
def AddressesSerde.from_addresses (a : Addresses) (net : Network) : AddressesSerde :=
  { address_for_oracle_tokens := address_to_str net a.address_for_oracle_tokens,
    wallet_address_for_chain_transaction :=
      address_to_str net a.wallet_address_for_chain_transaction }

/-- TryFrom AddressesSerde for AddressesWithPrefix (serde.rs lines
203-220).  The oracle-token address is decoded without a network check;
its recovered tag is then used for a checked parse of the wallet
address, so a wallet address under a different network tag fails the
decode itself. -/
def AddressesWithNet.try_from (a : AddressesSerde) :
    Except AddressEncoderError AddressesWithNet := do
  let oracle_token_network_addr ←
    unchecked_parse_network_address_from_str a.address_for_oracle_tokens
  let net := oracle_token_network_addr.network
  let wallet_address_for_chain_transaction ←
    parse_address_from_str net a.wallet_address_for_chain_transaction
  pure { addresses := { address_for_oracle_tokens := oracle_token_network_addr.address,
                        wallet_address_for_chain_transaction :=
                          wallet_address_for_chain_transaction },
         net := net }

/-- Models CastBallotBoxVoteParameters (opaque passthrough). -/
abbrev VoteParameters := Nat

structure BallotBoxWrapperParametersSerde where
  contract_parameters : BallotContractParametersSerde
  vote_parameters : Option VoteParameters
  ballot_token_owner_address : AddrStr
deriving DecidableEq, Repr

structure BallotBoxWrapperParameters where
  contract_parameters : BallotContractParameters
  vote_parameters : Option VoteParameters
  ballot_token_owner_address : Address
deriving DecidableEq, Repr

/-- Models OracleConfigSerde (serde.rs lines 30-49).  Non-address
payload fields are carried opaquely with their source names. -/
structure OracleConfigSerde where
  node_ip : String
  node_port : Nat
  node_api_key : String
  base_fee : Nat
  log_level : Option Nat
  core_api_port : Nat
  oracle_address : String
  data_point_source : Option Nat
  data_point_source_custom_script : Option String
  oracle_contract_parameters : OracleContractParametersSerde
  pool_contract_parameters : PoolContractParametersSerde
  refresh_contract_parameters : RefreshContractParametersSerde
  update_contract_parameters : UpdateContractParametersSerde
  ballot_parameters : BallotBoxWrapperParametersSerde
  token_ids : Nat
  addresses : AddressesSerde
deriving DecidableEq, Repr

/-- Models OracleConfig (validated form). -/
structure OracleConfig where
  node_ip : String
  node_port : Nat
  node_api_key : String
  base_fee : Nat
  log_level : Option Nat
  core_api_port : Nat
  oracle_address : String
  data_point_source : Option Nat
  data_point_source_custom_script : Option String
  oracle_contract_parameters : OracleContractParameters
  pool_contract_parameters : PoolContractParameters
  refresh_contract_parameters : RefreshContractParameters
  update_contract_parameters : UpdateContractParameters
  ballot_parameters : BallotBoxWrapperParameters
  token_ids : Nat
  addresses : Addresses
deriving DecidableEq, Repr

/-- From (OracleConfig, NetworkPrefix) for OracleConfigSerde (serde.rs
lines 59-99).  The five contract p2s addresses are re-encoded through
the From impls that hardcode Mainnet; only the ballot-token-owner
address and the Addresses bundle use the given network tag. -/
def OracleConfigSerde.from_config (c : OracleConfig) (net : Network) :
    OracleConfigSerde :=
  { node_ip := c.node_ip
    node_port := c.node_port
    node_api_key := c.node_api_key
    base_fee := c.base_fee
    log_level := c.log_level
    core_api_port := c.core_api_port
    oracle_address := c.oracle_address
    data_point_source := c.data_point_source
    data_point_source_custom_script := c.data_point_source_custom_script
    oracle_contract_parameters :=
      OracleContractParametersSerde.from_parameters c.oracle_contract_parameters
    pool_contract_parameters :=
      PoolContractParametersSerde.from_parameters c.pool_contract_parameters
    refresh_contract_parameters :=
      RefreshContractParametersSerde.from_parameters c.refresh_contract_parameters
    update_contract_parameters :=
      UpdateContractParametersSerde.from_parameters c.update_contract_parameters
    ballot_parameters :=
      { contract_parameters :=
          BallotContractParametersSerde.from_parameters
            c.ballot_parameters.contract_parameters
        vote_parameters := c.ballot_parameters.vote_parameters
        ballot_token_owner_address :=
          address_to_str net c.ballot_parameters.ballot_token_owner_address }
    token_ids := c.token_ids
    addresses := AddressesSerde.from_addresses c.addresses net }

/-- TryFrom OracleConfigSerde for OracleConfig (serde.rs lines 101-163):
decode the five contract bundles, the ballot-token-owner address and
the Addresses bundle in source order, then require every recovered
network tag to equal the ballot-token-owner's. -/
def OracleConfig.try_from (c : OracleConfigSerde) :
    Except SerdeConversionError OracleConfig := do
  let (oracle_contract_parameters, oracle_contract_net) ←
    (OracleContractParameters.try_from c.oracle_contract_parameters).mapError
      SerdeConversionError.addressEncoder
  let (pool_contract_parameters, pool_contract_net) ←
    (PoolContractParameters.try_from c.pool_contract_parameters).mapError
      SerdeConversionError.addressEncoder
  let (refresh_contract_parameters, refresh_contract_net) ←
    (RefreshContractParameters.try_from c.refresh_contract_parameters).mapError
      SerdeConversionError.addressEncoder
  let (update_contract_parameters, update_contract_net) ←
    (UpdateContractParameters.try_from c.update_contract_parameters).mapError
      SerdeConversionError.addressEncoder
  let owner ←
    (unchecked_parse_network_address_from_str
      c.ballot_parameters.ballot_token_owner_address).mapError
      SerdeConversionError.addressEncoder
  let ballot_token_owner_address := owner.address
  let network := owner.network
  let (ballot_contract_parameters, ballot_contract_net) ←
    (BallotContractParameters.try_from c.ballot_parameters.contract_parameters).mapError
      SerdeConversionError.addressEncoder
  let ballot_parameters : BallotBoxWrapperParameters :=
    { contract_parameters := ballot_contract_parameters
      vote_parameters := c.ballot_parameters.vote_parameters
      ballot_token_owner_address := ballot_token_owner_address }
  let addresses_with ←
    (AddressesWithNet.try_from c.addresses).mapError
      SerdeConversionError.addressEncoder
  if addresses_with.net = network ∧ ballot_contract_net = network ∧
      update_contract_net = network ∧ refresh_contract_net = network ∧
      oracle_contract_net = network ∧ pool_contract_net = network then
    pure { node_ip := c.node_ip
           node_port := c.node_port
           node_api_key := c.node_api_key
           base_fee := c.base_fee
           log_level := c.log_level
           core_api_port := c.core_api_port
           oracle_address := c.oracle_address
           data_point_source := c.data_point_source
           data_point_source_custom_script := c.data_point_source_custom_script
           oracle_contract_parameters := oracle_contract_parameters
           pool_contract_parameters := pool_contract_parameters
           refresh_contract_parameters := refresh_contract_parameters
           update_contract_parameters := update_contract_parameters
           ballot_parameters := ballot_parameters
           token_ids := c.token_ids
           addresses := addresses_with.addresses }
  else
    .error SerdeConversionError.networkPrefixesDiffer

/-! ## Update-bootstrap configuration (serde.rs lines 475-541) -/

/-- Models UpdateTokensToMint (opaque passthrough). -/
abbrev UpdateTokensToMint := Nat

/-- Models UpdateBootstrapConfigSerde (serde.rs lines 475-482): the
three contract-parameter bundles are optional. -/
structure UpdateBootstrapConfigSerde where
  pool_contract_parameters : Option PoolContractParametersSerde
  refresh_contract_parameters : Option RefreshContractParametersSerde
  update_contract_parameters : Option UpdateContractParametersSerde
  tokens_to_mint : UpdateTokensToMint
  addresses : AddressesSerde
deriving DecidableEq, Repr

/-- Models UpdateBootstrapConfig (validated form). -/
structure UpdateBootstrapConfig where
  pool_contract_parameters : Option PoolContractParameters
  refresh_contract_parameters : Option RefreshContractParameters
  update_contract_parameters : Option UpdateContractParameters
  tokens_to_mint : UpdateTokensToMint
  addresses : Addresses
deriving DecidableEq, Repr

/-- Models `c.field.map(|r| r.try_into()).transpose()?`: an absent
bundle is skipped (no decode), a present one is decoded. -/
def optTry {A B : Type} (f : A → Except AddressEncoderError (B × Network)) :
    Option A → Except AddressEncoderError (Option (B × Network))
  | none => pure none
  | some q => do
    let r ← f q
    pure (some r)

/-- Models the check loop `for p in prefixes { if p != existing { return
Err(NetworkPrefixesDiffer) } }` (serde.rs lines 525-529). -/
def checkAllNets : List Network → Network → Except SerdeConversionError Unit
  | [], _ => pure ()
  | p :: rest, existing =>
    if p = existing then checkAllNets rest existing
    else .error SerdeConversionError.networkPrefixesDiffer

/-- TryFrom (UpdateBootstrapConfigSerde, NetworkPrefix) for
UpdateBootstrapConfig (serde.rs lines 485-541): decode the bundles that
are present, collect their recovered network tags together with the
addresses bundle's, and require each to equal the caller-supplied
existing network tag. -/
def update_bootstrap_try_from (c : UpdateBootstrapConfigSerde)
    (existing_net : Network) : Except SerdeConversionError UpdateBootstrapConfig := do
  let pool_contract_parameters ←
    (optTry PoolContractParameters.try_from c.pool_contract_parameters).mapError
      SerdeConversionError.addressEncoder
  let refresh_contract_parameters ←
    (optTry RefreshContractParameters.try_from c.refresh_contract_parameters).mapError
      SerdeConversionError.addressEncoder
  let update_contract_parameters ←
    (optTry UpdateContractParameters.try_from c.update_contract_parameters).mapError
      SerdeConversionError.addressEncoder
  let addresses_with ←
    (AddressesWithNet.try_from c.addresses).mapError
      SerdeConversionError.addressEncoder
  let nets : List Network :=
    (pool_contract_parameters.map Prod.snd).toList ++
    (refresh_contract_parameters.map Prod.snd).toList ++
    (update_contract_parameters.map Prod.snd).toList ++
    [addresses_with.net]
  let _ ← checkAllNets nets existing_net
  pure { pool_contract_parameters := pool_contract_parameters.map Prod.fst
         refresh_contract_parameters := refresh_contract_parameters.map Prod.fst
         update_contract_parameters := update_contract_parameters.map Prod.fst
         tokens_to_mint := c.tokens_to_mint
         addresses := addresses_with.addresses }

/-! ## Epoch decision engine (src/core/src/state.rs) -/

/-- u32 modulus. -/
def U32 : Nat := 4294967296

/-- u32 wrapping subtraction (release-profile Rust semantics), for
arguments below `U32`. -/
def wrapSub (a b : Nat) : Nat := (a + U32 - b) % U32

/-- u32 wrapping addition (release-profile Rust semantics). -/
def wrapAdd (a b : Nat) : Nat := (a + b) % U32

/-- Models LocalDatapointBoxState: the epoch id and height of this
node's most recently posted datapoint box. -/
structure LocalDatapointBoxState where
  epoch_id : Nat
  height : Nat
deriving DecidableEq, Repr

/-- Models LiveEpochState (spec section 3). -/
structure LiveEpochState where
  epoch_id : Nat
  latest_pool_box_height : Nat
  local_datapoint_box_state : Option LocalDatapointBoxState
deriving DecidableEq, Repr

/-- Models PoolState (state.rs lines 13-16). -/
inductive PoolState
  | needsBootstrap
  | liveEpoch (s : LiveEpochState)
deriving DecidableEq, Repr

/-- Models PoolCommand (the variants produced by `process`). -/
inductive PoolCommand
  | publishFirstDataPoint
  | publishSubsequentDataPoint (republish : Bool)
  | refresh
deriving DecidableEq, Repr

/-- Models StageError: `process` never constructs one, so the carrier
is empty. -/
inductive StageError
deriving DecidableEq, Repr

/-- Models `process` (state.rs lines 18-59).  The configured epoch
length (read from the refresh contract parameters of the process-wide
configuration and cast to u32 in the source) is passed as a parameter;
u32 arithmetic wraps modulo 2^32. -/
def process (epoch_length : Nat) (pool_state : PoolState) (height : Nat) :
    Except StageError (Option PoolCommand) :=
  match pool_state with
  | .needsBootstrap => .ok none
  | .liveEpoch live_epoch =>
    match live_epoch.local_datapoint_box_state with
    | some local_datapoint_box_state =>
      if local_datapoint_box_state.epoch_id ≠ live_epoch.epoch_id then
        .ok (some (.publishSubsequentDataPoint false))
      else if local_datapoint_box_state.height < wrapSub height epoch_length then
        .ok (some (.publishSubsequentDataPoint true))
      else if wrapAdd live_epoch.latest_pool_box_height epoch_length ≤ height then
        .ok (some .refresh)
      else
        .ok none
    | none => .ok (some .publishFirstDataPoint)

/-! ## Transaction confirmation watcher (src/core/src/explorer_api.rs) -/

/-- Models ergo-lib TxId as an opaque identifier. -/
abbrev TxId := Nat

/-- Models a transaction record returned by the explorer; only its
identifier is inspected by the watcher. -/
structure Transaction where
  id : TxId
  payload : Nat
deriving DecidableEq, Repr

/-- Models ExplorerApiError (explorer_api.rs lines 15-23). -/
inductive ExplorerApiError
  | requestError (tag : Nat)
  | serdeError (tag : Nat)
  | invalidExplorerUrl (tag : Nat)
deriving DecidableEq, Repr

/-- One sweep of the watcher loop (explorer_api.rs lines 75-81):
iterate over a snapshot of the pending list; a failed lookup is
skipped; a successful lookup asserts the returned identifier equals the
requested one (`none` models the aborted process when the assertion
fails) and removes the identifier from the still-pending list. -/
def sweepTxs (lookupAt : TxId → Except ExplorerApiError Transaction) :
    List TxId → List TxId → Option (List TxId)
  | [], remaining => some remaining
  | t :: rest, remaining =>
    match lookupAt t with
    | .error _ => sweepTxs lookupAt rest remaining
    | .ok tx =>
      if tx.id = t then sweepTxs lookupAt rest (remaining.filter (fun i => i != t))
      else none

/-- The watcher's time model: `elapsed k` is the elapsed whole seconds
observed at the timeout check after sweep `k`; the fixed 10-second
sleep between sweeps makes it grow by at least 10 per sweep. -/
structure TimeModel where
  elapsed : Nat → Nat
  step : ∀ k, elapsed k + 10 ≤ elapsed (k + 1)

/-- The watcher loop (explorer_api.rs lines 74-90): sweep the pending
identifiers, stop when none remain, otherwise stop once elapsed time
exceeds the 600-second ceiling, otherwise sleep 10 seconds and sweep
again.  Success and timeout return the same value; `none` models the
aborted process from the identifier assertion. -/
def waitLoop (tm : TimeModel)
    (lookup : Nat → TxId → Except ExplorerApiError Transaction)
    (k : Nat) (remaining_txs : List TxId) : Option Unit :=
  match sweepTxs (lookup k) remaining_txs remaining_txs with
  | none => none
  | some r =>
    if r.isEmpty then some ()
    else if h : tm.elapsed k > 600 then some ()
    else waitLoop tm lookup (k + 1) r
termination_by 601 - tm.elapsed k
decreasing_by
  have := tm.step k
  omega

/-- Models wait_for_txs_confirmation (explorer_api.rs lines 62-91).
The per-network endpoint choice and the HTTP transport are external
I/O, abstracted into the indexed `lookup` environment. -/
def wait_for_txs_confirmation (tm : TimeModel)
    (lookup : Nat → TxId → Except ExplorerApiError Transaction)
    (tx_ids : List TxId) : Option Unit :=
  waitLoop tm lookup 0 tx_ids

/-- Models wait_for_tx_confirmation (explorer_api.rs lines 58-60). -/
def wait_for_tx_confirmation (tm : TimeModel)
    (lookup : Nat → TxId → Except ExplorerApiError Transaction)
    (tx_id : TxId) : Option Unit :=
  wait_for_txs_confirmation tm lookup [tx_id]

/-! ## Auxiliary definitions used by the statements -/

/-- True exactly on conversion results that are address-decode failures
(the AddressEncoder arm of SerdeConversionError). -/
def isDecodeFailure : Except SerdeConversionError OracleConfig → Bool
  | .error (.addressEncoder _) => true
  | _ => false

/-- A serialized configuration whose eight decoded address fields are
set to the given well-formed network addresses (the remaining payload
fields come from the base configuration `c0`).  Field order:
oracle p2s, pool p2s, refresh p2s, update p2s, ballot-token owner,
ballot p2s, oracle-token address, wallet address. -/
def withEncodedAddrs (c0 : OracleConfigSerde)
    (a1 a2 a3 a4 a5 a6 a7 a8 : NetworkAddress) : OracleConfigSerde :=
  { c0 with
    oracle_contract_parameters :=
      { c0.oracle_contract_parameters with p2s := .encoded a1 }
    pool_contract_parameters :=
      { c0.pool_contract_parameters with p2s := .encoded a2 }
    refresh_contract_parameters :=
      { c0.refresh_contract_parameters with p2s := .encoded a3 }
    update_contract_parameters :=
      { c0.update_contract_parameters with p2s := .encoded a4 }
    ballot_parameters :=
      { c0.ballot_parameters with
        ballot_token_owner_address := .encoded a5
        contract_parameters :=
          { c0.ballot_parameters.contract_parameters with p2s := .encoded a6 } }
    addresses := { address_for_oracle_tokens := .encoded a7
                   wallet_address_for_chain_transaction := .encoded a8 } }

/-- A concrete serialized configuration whose eight address fields are
all encoded under the given network tag. -/
def sampleSerde (net : Network) : OracleConfigSerde :=
  { node_ip := "10.0.0.1"
    node_port := 9053
    node_api_key := "key"
    base_fee := 1100000
    log_level := none
    core_api_port := 9010
    oracle_address := "oracleaddr"
    data_point_source := some 1
    data_point_source_custom_script := none
    oracle_contract_parameters := { p2s := .encoded ⟨⟨1⟩, net⟩, pool_nft_index := 5 }
    pool_contract_parameters :=
      { p2s := .encoded ⟨⟨2⟩, net⟩, refresh_nft_index := 2, update_nft_index := 3 }
    refresh_contract_parameters :=
      { p2s := .encoded ⟨⟨3⟩, net⟩, pool_nft_index := 17, oracle_token_id_index := 3,
        min_data_points_index := 13, min_data_points := 4, buffer_index := 21,
        buffer_length := 4, max_deviation_percent_index := 15,
        max_deviation_percent := 5, epoch_length_index := 0, epoch_length := 30 }
    update_contract_parameters :=
      { p2s := .encoded ⟨⟨4⟩, net⟩, pool_nft_index := 5, ballot_token_index := 9,
        min_votes_index := 13, min_votes := 6 }
    ballot_parameters :=
      { contract_parameters :=
          { p2s := .encoded ⟨⟨6⟩, net⟩, min_storage_rent_index := 0,
            min_storage_rent := 10000000, update_nft_index := 6 }
        vote_parameters := some 7
        ballot_token_owner_address := .encoded ⟨⟨5⟩, net⟩ }
    token_ids := 42
    addresses := { address_for_oracle_tokens := .encoded ⟨⟨7⟩, net⟩
                   wallet_address_for_chain_transaction := .encoded ⟨⟨8⟩, net⟩ } }

/-- The validated configuration that `sampleSerde net` converts to. -/
def sampleConfig : OracleConfig :=
  { node_ip := "10.0.0.1"
    node_port := 9053
    node_api_key := "key"
    base_fee := 1100000
    log_level := none
    core_api_port := 9010
    oracle_address := "oracleaddr"
    data_point_source := some 1
    data_point_source_custom_script := none
    oracle_contract_parameters := { p2s := ⟨1⟩, pool_nft_index := 5 }
    pool_contract_parameters := { p2s := ⟨2⟩, refresh_nft_index := 2, update_nft_index := 3 }
    refresh_contract_parameters :=
      { p2s := ⟨3⟩, pool_nft_index := 17, oracle_token_id_index := 3,
        min_data_points_index := 13, min_data_points := 4, buffer_index := 21,
        buffer_length := 4, max_deviation_percent_index := 15,
        max_deviation_percent := 5, epoch_length_index := 0, epoch_length := 30 }
    update_contract_parameters :=
      { p2s := ⟨4⟩, pool_nft_index := 5, ballot_token_index := 9,
        min_votes_index := 13, min_votes := 6 }
    ballot_parameters :=
      { contract_parameters :=
          { p2s := ⟨6⟩, min_storage_rent_index := 0,
            min_storage_rent := 10000000, update_nft_index := 6 }
        vote_parameters := some 7
        ballot_token_owner_address := ⟨5⟩ }
    token_ids := 42
    addresses := { address_for_oracle_tokens := ⟨7⟩
                   wallet_address_for_chain_transaction := ⟨8⟩ } }

/-- A linear time model for concrete runs of the watcher: the timeout
check after sweep `k` observes `10 * k` elapsed seconds. -/
def tmLinear : TimeModel :=
  { elapsed := fun k => 10 * k
    step := fun k => by simp only []; omega }

/-- A lookup environment whose record for every identifier carries the
wrong identifier 99. -/
def lookupMismatch : Nat → TxId → Except ExplorerApiError Transaction :=
  fun _ _ => .ok ⟨99, 0⟩

/-- A lookup environment that always fails with a transport error. -/
def lookupNever : Nat → TxId → Except ExplorerApiError Transaction :=
  fun _ _ => .error (.requestError 0)

/-- A concrete update-bootstrap document: only the pool bundle is
present, and all its addresses are encoded under testnet. -/
def sampleUpdateSerde : UpdateBootstrapConfigSerde :=
  { pool_contract_parameters :=
      some { p2s := .encoded ⟨⟨11⟩, .testnet⟩, refresh_nft_index := 2, update_nft_index := 3 }
    refresh_contract_parameters := none
    update_contract_parameters := none
    tokens_to_mint := 3
    addresses := { address_for_oracle_tokens := .encoded ⟨⟨7⟩, .testnet⟩
                   wallet_address_for_chain_transaction := .encoded ⟨⟨8⟩, .testnet⟩ } }

/-! ## Claims about the epoch decision engine -/

/-- Claim C7: process maps NeedsBootstrap to no command at every
height, and a live epoch with no local datapoint box state to
PublishFirstDataPoint at every height and every latest pool box height,
so the first datapoint takes priority over a due refresh. -/
theorem process_bootstrap_none_and_first_datapoint
    (epoch_length height epoch_id latest_pool_box_height : Nat) :
    process epoch_length .needsBootstrap height = .ok none ∧
    process epoch_length (.liveEpoch ⟨epoch_id, latest_pool_box_height, none⟩) height =
      .ok (some .publishFirstDataPoint) :=
  ⟨rfl, rfl⟩

/-- Claim C2 (amended): for a live epoch with a local datapoint and a
height at least the epoch length, process follows the stated priority
order, where the refresh bound is additionally assumed not to overflow
u32 (the source computes it with wrapping u32 addition). -/
theorem process_live_epoch_priority
    (epoch_length epoch_id latest_pool_box_height lid lh height : Nat)
    (hheight : height < U32) (hlen : epoch_length ≤ height)
    (hadd : latest_pool_box_height + epoch_length < U32) :
    process epoch_length
        (.liveEpoch ⟨epoch_id, latest_pool_box_height, some ⟨lid, lh⟩⟩) height =
      .ok (if lid ≠ epoch_id then some (.publishSubsequentDataPoint false)
           else if lh < height - epoch_length then some (.publishSubsequentDataPoint true)
           else if latest_pool_box_height + epoch_length ≤ height then some .refresh
           else none) := by
  have hsub : wrapSub height epoch_length = height - epoch_length := by
    unfold wrapSub
    have h1 : height + U32 - epoch_length = (height - epoch_length) + U32 := by omega
    rw [h1, Nat.add_mod_right, Nat.mod_eq_of_lt (by omega)]
  have hadd' : wrapAdd latest_pool_box_height epoch_length =
      latest_pool_box_height + epoch_length := by
    unfold wrapAdd
    exact Nat.mod_eq_of_lt hadd
  simp only [process, hsub, hadd']
  split_ifs <;> rfl

/-- Witness for C2 at the spec's worked example: epoch_length 10, local
datapoint at height 95 in the live epoch 5, pool box at height 85,
current height 100: the Refresh command is due. -/
theorem process_live_epoch_priority_witness :
    process 10 (.liveEpoch ⟨5, 85, some ⟨5, 95⟩⟩) 100 = .ok (some .refresh) := by
  have h := process_live_epoch_priority 10 5 85 5 95 100 (by decide) (by decide) (by decide)
  rw [h]
  rfl

/-- Counterexample to C2 as stated: with epoch_length 10 and the pool
box height at the u32 maximum 4294967295, height 100 satisfies the
claim's premises and none of its first three rules fire (the epoch ids
agree, 95 is not less than 90, and 100 is less than 4294967295 + 10),
so the claim requires no command; the code's wrapping u32 addition
makes the refresh bound 9 and it returns Refresh. -/
theorem process_live_epoch_priority_counterexample :
    process 10 (.liveEpoch ⟨5, 4294967295, some ⟨5, 95⟩⟩) 100 = .ok (some .refresh) ∧
    (10 : Nat) ≤ 100 ∧ (100 : Nat) < 4294967295 + 10 ∧
    ((95 : Nat) < 100 - 10) = False ∧
    (process 10 (.liveEpoch ⟨5, 4294967295, some ⟨5, 95⟩⟩) 100 = .ok none) = False :=
  ⟨rfl, by decide, by decide, eq_false (by decide), eq_false (by decide)⟩

/-- Claim C6: when the local datapoint is in the live epoch and the
height is below the epoch length, the staleness subtraction wraps
modulo 2^32 (release-profile u32 semantics) instead of aborting, and
process still returns a value: the comparison is made against
height + (2^32 - epoch_length). -/
theorem process_early_height_total
    (epoch_length epoch_id latest_pool_box_height lid lh height : Nat)
    (hepoch : lid = epoch_id) (hearly : height < epoch_length)
    (hlen : epoch_length ≤ U32) :
    process epoch_length
        (.liveEpoch ⟨epoch_id, latest_pool_box_height, some ⟨lid, lh⟩⟩) height =
      .ok (if lh < height + (U32 - epoch_length) then some (.publishSubsequentDataPoint true)
           else if wrapAdd latest_pool_box_height epoch_length ≤ height then some .refresh
           else none) := by
  have hsub : wrapSub height epoch_length = height + (U32 - epoch_length) := by
    unfold wrapSub
    have h1 : height + U32 - epoch_length = height + (U32 - epoch_length) := by omega
    rw [h1, Nat.mod_eq_of_lt (by omega)]
  simp only [process, hsub]
  rw [if_neg (by simp [hepoch])]
  split_ifs <;> rfl

/-- Witness for C6: epoch_length 10 at height 5 (below the epoch
length) with a matching local epoch id: process returns the republish
command rather than aborting. -/
theorem process_early_height_total_witness :
    process 10 (.liveEpoch ⟨7, 0, some ⟨7, 3⟩⟩) 5 =
      .ok (some (.publishSubsequentDataPoint true)) := by
  have h := process_early_height_total 10 7 0 7 3 5 rfl (by decide) (by decide)
  rw [h]
  rfl

/-! ## Claims about the transaction confirmation watcher -/

/-- A sweep aborts (models the failed assertion) whenever a lookup in
the snapshot succeeds with a record whose identifier differs from the
requested one. -/
theorem sweepTxs_abort (f : TxId → Except ExplorerApiError Transaction)
    (tx : Transaction) (i : TxId) :
    ∀ snap rem, i ∈ snap → f i = .ok tx → tx.id ≠ i → sweepTxs f snap rem = none := by
  intro snap
  induction snap with
  | nil =>
    intro rem h
    exact absurd h (List.not_mem_nil i)
  | cons t rest ih =>
    intro rem hmem hok hne
    rcases List.mem_cons.mp hmem with heq | hmem'
    · subst heq
      simp only [sweepTxs, hok]
      rw [if_neg hne]
    · cases hft : f t with
      | error e =>
        simp only [sweepTxs, hft]
        exact ih rem hmem' hok hne
      | ok tx' =>
        simp only [sweepTxs, hft]
        by_cases h : tx'.id = t
        · rw [if_pos h]
          exact ih _ hmem' hok hne
        · rw [if_neg h]

/-- If a sweep completes and an identifier left the pending list, its
lookup succeeded with a record carrying exactly that identifier. -/
theorem sweepTxs_removed_only_matched (f : TxId → Except ExplorerApiError Transaction) :
    ∀ snap rem r (i : TxId), sweepTxs f snap rem = some r → i ∈ rem → i ∉ r →
      ∃ tx, f i = .ok tx ∧ tx.id = i := by
  intro snap
  induction snap with
  | nil =>
    intro rem r i hs hin hout
    simp only [sweepTxs, Option.some.injEq] at hs
    subst hs
    exact absurd hin hout
  | cons t rest ih =>
    intro rem r i hs hin hout
    cases hft : f t with
    | error e =>
      simp only [sweepTxs, hft] at hs
      exact ih _ _ _ hs hin hout
    | ok tx =>
      simp only [sweepTxs, hft] at hs
      by_cases hid : tx.id = t
      · rw [if_pos hid] at hs
        by_cases hit : i = t
        · subst hit
          exact ⟨tx, hft, hid⟩
        · have hin' : i ∈ rem.filter (fun j => j != t) := by
            simp only [List.mem_filter, hin, true_and, bne_iff_ne, ne_eq]
            exact hit
          exact ih _ _ _ hs hin' hout
      · rw [if_neg hid] at hs
        cases hs

/-- Claim C8: a successful lookup whose returned record carries a
different identifier aborts the watcher (the assertion fails), and an
identifier is removed from the pending list only when the returned
record's identifier exactly equals it. -/
theorem watcher_asserts_identifier_match :
    (∀ (tm : TimeModel) (lookup : Nat → TxId → Except ExplorerApiError Transaction)
        (tx_ids : List TxId) (i : TxId) (tx : Transaction),
        i ∈ tx_ids → lookup 0 i = .ok tx → tx.id ≠ i →
        wait_for_txs_confirmation tm lookup tx_ids = none) ∧
    (∀ (f : TxId → Except ExplorerApiError Transaction) (snap rem r : List TxId)
        (i : TxId), sweepTxs f snap rem = some r → i ∈ rem → i ∉ r →
        ∃ tx, f i = .ok tx ∧ tx.id = i) := by
  constructor
  · intro tm lookup tx_ids i tx hmem hok hne
    have hs := sweepTxs_abort (lookup 0) tx i tx_ids tx_ids hmem hok hne
    unfold wait_for_txs_confirmation
    rw [waitLoop, hs]
  · exact fun f snap rem r i => sweepTxs_removed_only_matched f snap rem r i

/-- Witness for C8: with a lookup environment that answers every
request with a record for identifier 99, watching identifier 0 aborts. -/
theorem watcher_asserts_identifier_match_witness :
    wait_for_txs_confirmation tmLinear lookupMismatch [0] = none :=
  watcher_asserts_identifier_match.1 tmLinear lookupMismatch [0] 0 ⟨99, 0⟩
    (by decide) rfl (by decide)

/-- When every successful lookup is well-matched, a sweep never aborts. -/
theorem sweepTxs_good_some (f : TxId → Except ExplorerApiError Transaction)
    (hgood : ∀ i tx, f i = .ok tx → tx.id = i) :
    ∀ snap rem, ∃ r, sweepTxs f snap rem = some r := by
  intro snap
  induction snap with
  | nil => intro rem; exact ⟨rem, rfl⟩
  | cons t rest ih =>
    intro rem
    cases hft : f t with
    | error e =>
      simpa only [sweepTxs, hft] using ih rem
    | ok tx =>
      simpa only [sweepTxs, hft, if_pos (hgood t tx hft)] using ih _

/-- The watcher loop returns normally from every sweep index, by
induction on the remaining seconds before the 600-second ceiling. -/
theorem waitLoop_good_some (tm : TimeModel)
    (lookup : Nat → TxId → Except ExplorerApiError Transaction)
    (hgood : ∀ k i tx, lookup k i = .ok tx → tx.id = i) :
    ∀ (n k : Nat) (rem : List TxId), 601 - tm.elapsed k ≤ n →
      waitLoop tm lookup k rem = some () := by
  intro n
  induction n with
  | zero =>
    intro k rem hn
    obtain ⟨r, hr⟩ := sweepTxs_good_some (lookup k) (hgood k) rem rem
    rw [waitLoop, hr]
    dsimp only
    by_cases he : r.isEmpty
    · rw [if_pos he]
    · rw [if_neg he, dif_pos (by omega)]
  | succ n ih =>
    intro k rem hn
    obtain ⟨r, hr⟩ := sweepTxs_good_some (lookup k) (hgood k) rem rem
    rw [waitLoop, hr]
    dsimp only
    by_cases he : r.isEmpty
    · rw [if_pos he]
    · rw [if_neg he]
      by_cases ht : tm.elapsed k > 600
      · rw [dif_pos ht]
      · rw [dif_neg ht]
        apply ih
        have := tm.step k
        omega

/-- Claim C9: provided the indexer never returns a mismatched record
(the only aborting path, settled in C8), the watcher returns normally
with the same valueless result both on full confirmation and on
timeout: per-identifier lookup failures are swallowed and retried, the
loop ends when the pending list empties or the 600-second ceiling is
exceeded, and no error is ever propagated. -/
theorem watcher_returns_normally (tm : TimeModel)
    (lookup : Nat → TxId → Except ExplorerApiError Transaction)
    (tx_ids : List TxId)
    (hgood : ∀ k i tx, lookup k i = .ok tx → tx.id = i) :
    wait_for_txs_confirmation tm lookup tx_ids = some () :=
  waitLoop_good_some tm lookup hgood (601 - tm.elapsed 0) 0 tx_ids le_rfl

/-- Witness for C9: an identifier the indexer never confirms still
makes the watcher return normally (after the timeout). -/
theorem watcher_returns_normally_witness :
    wait_for_txs_confirmation tmLinear lookupNever [5] = some () :=
  watcher_returns_normally tmLinear lookupNever [5] (fun _ _ _ h => nomatch h)

/-! ## Claims about configuration (de)serialization -/

/-- Claim C4 (amended): re-serializing a validated configuration with
the Mainnet tag and re-validating yields the same configuration; with
the Testnet tag re-validation fails with NetworkPrefixesDiffer, because
the five contract p2s addresses are re-encoded with a hardcoded
Mainnet tag while the remaining address fields use the given one. -/
theorem serde_round_trip (c : OracleConfig) :
    OracleConfig.try_from (OracleConfigSerde.from_config c .mainnet) = .ok c ∧
    OracleConfig.try_from (OracleConfigSerde.from_config c .testnet) =
      .error .networkPrefixesDiffer :=
  ⟨rfl, rfl⟩

/-- Counterexample to C4 as stated: a configuration that validates
under the single tag Testnet, once re-serialized with Testnet, fails
re-validation with NetworkPrefixesDiffer instead of validating to an
equal configuration. -/
theorem serde_round_trip_counterexample :
    OracleConfig.try_from (sampleSerde .testnet) = .ok sampleConfig ∧
    OracleConfig.try_from (OracleConfigSerde.from_config sampleConfig .testnet) =
      .error .networkPrefixesDiffer ∧
    (OracleConfig.try_from (OracleConfigSerde.from_config sampleConfig .testnet) =
      .ok sampleConfig) = False :=
  ⟨rfl, rfl, eq_false (by decide)⟩

/-- Claim C5 (amended): serialization of a validated configuration is
total, re-encodes the ballot-token-owner address and both Addresses
fields with the given network tag, but re-encodes the five contract
p2s addresses with the hardcoded Mainnet tag, not the given one. -/
theorem serde_from_config_address_fields (c : OracleConfig) (net : Network) :
    (OracleConfigSerde.from_config c net).oracle_contract_parameters.p2s =
      address_to_str .mainnet c.oracle_contract_parameters.p2s ∧
    (OracleConfigSerde.from_config c net).pool_contract_parameters.p2s =
      address_to_str .mainnet c.pool_contract_parameters.p2s ∧
    (OracleConfigSerde.from_config c net).refresh_contract_parameters.p2s =
      address_to_str .mainnet c.refresh_contract_parameters.p2s ∧
    (OracleConfigSerde.from_config c net).update_contract_parameters.p2s =
      address_to_str .mainnet c.update_contract_parameters.p2s ∧
    (OracleConfigSerde.from_config c net).ballot_parameters.contract_parameters.p2s =
      address_to_str .mainnet c.ballot_parameters.contract_parameters.p2s ∧
    (OracleConfigSerde.from_config c net).ballot_parameters.ballot_token_owner_address =
      address_to_str net c.ballot_parameters.ballot_token_owner_address ∧
    (OracleConfigSerde.from_config c net).addresses.address_for_oracle_tokens =
      address_to_str net c.addresses.address_for_oracle_tokens ∧
    (OracleConfigSerde.from_config c net).addresses.wallet_address_for_chain_transaction =
      address_to_str net c.addresses.wallet_address_for_chain_transaction :=
  ⟨rfl, rfl, rfl, rfl, rfl, rfl, rfl, rfl⟩

/-- Counterexample to C5 as stated: serializing with the Testnet tag
leaves the oracle contract p2s address encoded under Mainnet, so it is
not re-encoded with the given tag. -/
theorem serde_from_config_address_fields_counterexample :
    (OracleConfigSerde.from_config sampleConfig .testnet).oracle_contract_parameters.p2s =
      .encoded ⟨⟨1⟩, .mainnet⟩ ∧
    ((OracleConfigSerde.from_config sampleConfig .testnet).oracle_contract_parameters.p2s =
      address_to_str .testnet sampleConfig.oracle_contract_parameters.p2s) = False :=
  ⟨rfl, eq_false (by decide)⟩

/-- If conversion reaches the network comparison (it succeeds or fails
with NetworkPrefixesDiffer), then every one of the eight address fields
decoded successfully. -/
theorem try_from_ok_or_diff_all_encoded (cfg : OracleConfigSerde)
    (h : (∃ c, OracleConfig.try_from cfg = .ok c) ∨
         OracleConfig.try_from cfg = .error .networkPrefixesDiffer) :
    cfg.oracle_contract_parameters.p2s.isMalformed = false ∧
    cfg.pool_contract_parameters.p2s.isMalformed = false ∧
    cfg.refresh_contract_parameters.p2s.isMalformed = false ∧
    cfg.update_contract_parameters.p2s.isMalformed = false ∧
    cfg.ballot_parameters.ballot_token_owner_address.isMalformed = false ∧
    cfg.ballot_parameters.contract_parameters.p2s.isMalformed = false ∧
    cfg.addresses.address_for_oracle_tokens.isMalformed = false ∧
    cfg.addresses.wallet_address_for_chain_transaction.isMalformed = false := by
  cases h1 : cfg.oracle_contract_parameters.p2s with
  | malformed t =>
    exfalso
    have hres : OracleConfig.try_from cfg = .error (.addressEncoder (.cannotParse t)) := by
      simp [OracleConfig.try_from, OracleContractParameters.try_from,
        PoolContractParameters.try_from, RefreshContractParameters.try_from,
        UpdateContractParameters.try_from, BallotContractParameters.try_from,
        AddressesWithNet.try_from, unchecked_parse_network_address_from_str,
        parse_address_from_str, Except.mapError, bind, Except.bind, pure,
        Except.pure, Functor.map, Except.map, h1]
    rcases h with ⟨c, hc⟩ | hc <;> rw [hres] at hc <;> simp at hc
  | encoded a1 =>
  cases h2 : cfg.pool_contract_parameters.p2s with
  | malformed t =>
    exfalso
    have hres : OracleConfig.try_from cfg = .error (.addressEncoder (.cannotParse t)) := by
      simp [OracleConfig.try_from, OracleContractParameters.try_from,
        PoolContractParameters.try_from, RefreshContractParameters.try_from,
        UpdateContractParameters.try_from, BallotContractParameters.try_from,
        AddressesWithNet.try_from, unchecked_parse_network_address_from_str,
        parse_address_from_str, Except.mapError, bind, Except.bind, pure,
        Except.pure, Functor.map, Except.map, h1, h2]
    rcases h with ⟨c, hc⟩ | hc <;> rw [hres] at hc <;> simp at hc
  | encoded a2 =>
  cases h3 : cfg.refresh_contract_parameters.p2s with
  | malformed t =>
    exfalso
    have hres : OracleConfig.try_from cfg = .error (.addressEncoder (.cannotParse t)) := by
      simp [OracleConfig.try_from, OracleContractParameters.try_from,
        PoolContractParameters.try_from, RefreshContractParameters.try_from,
        UpdateContractParameters.try_from, BallotContractParameters.try_from,
        AddressesWithNet.try_from, unchecked_parse_network_address_from_str,
        parse_address_from_str, Except.mapError, bind, Except.bind, pure,
        Except.pure, Functor.map, Except.map, h1, h2, h3]
    rcases h with ⟨c, hc⟩ | hc <;> rw [hres] at hc <;> simp at hc
  | encoded a3 =>
  cases h4 : cfg.update_contract_parameters.p2s with
  | malformed t =>
    exfalso
    have hres : OracleConfig.try_from cfg = .error (.addressEncoder (.cannotParse t)) := by
      simp [OracleConfig.try_from, OracleContractParameters.try_from,
        PoolContractParameters.try_from, RefreshContractParameters.try_from,
        UpdateContractParameters.try_from, BallotContractParameters.try_from,
        AddressesWithNet.try_from, unchecked_parse_network_address_from_str,
        parse_address_from_str, Except.mapError, bind, Except.bind, pure,
        Except.pure, Functor.map, Except.map, h1, h2, h3, h4]
    rcases h with ⟨c, hc⟩ | hc <;> rw [hres] at hc <;> simp at hc
  | encoded a4 =>
  cases h5 : cfg.ballot_parameters.ballot_token_owner_address with
  | malformed t =>
    exfalso
    have hres : OracleConfig.try_from cfg = .error (.addressEncoder (.cannotParse t)) := by
      simp [OracleConfig.try_from, OracleContractParameters.try_from,
        PoolContractParameters.try_from, RefreshContractParameters.try_from,
        UpdateContractParameters.try_from, BallotContractParameters.try_from,
        AddressesWithNet.try_from, unchecked_parse_network_address_from_str,
        parse_address_from_str, Except.mapError, bind, Except.bind, pure,
        Except.pure, Functor.map, Except.map, h1, h2, h3, h4, h5]
    rcases h with ⟨c, hc⟩ | hc <;> rw [hres] at hc <;> simp at hc
  | encoded a5 =>
  cases h6 : cfg.ballot_parameters.contract_parameters.p2s with
  | malformed t =>
    exfalso
    have hres : OracleConfig.try_from cfg = .error (.addressEncoder (.cannotParse t)) := by
      simp [OracleConfig.try_from, OracleContractParameters.try_from,
        PoolContractParameters.try_from, RefreshContractParameters.try_from,
        UpdateContractParameters.try_from, BallotContractParameters.try_from,
        AddressesWithNet.try_from, unchecked_parse_network_address_from_str,
        parse_address_from_str, Except.mapError, bind, Except.bind, pure,
        Except.pure, Functor.map, Except.map, h1, h2, h3, h4, h5, h6]
    rcases h with ⟨c, hc⟩ | hc <;> rw [hres] at hc <;> simp at hc
  | encoded a6 =>
  cases h7 : cfg.addresses.address_for_oracle_tokens with
  | malformed t =>
    exfalso
    have hres : OracleConfig.try_from cfg = .error (.addressEncoder (.cannotParse t)) := by
      simp [OracleConfig.try_from, OracleContractParameters.try_from,
        PoolContractParameters.try_from, RefreshContractParameters.try_from,
        UpdateContractParameters.try_from, BallotContractParameters.try_from,
        AddressesWithNet.try_from, unchecked_parse_network_address_from_str,
        parse_address_from_str, Except.mapError, bind, Except.bind, pure,
        Except.pure, Functor.map, Except.map, h1, h2, h3, h4, h5, h6, h7]
    rcases h with ⟨c, hc⟩ | hc <;> rw [hres] at hc <;> simp at hc
  | encoded a7 =>
  cases h8 : cfg.addresses.wallet_address_for_chain_transaction with
  | malformed t =>
    exfalso
    have hres : OracleConfig.try_from cfg = .error (.addressEncoder (.cannotParse t)) := by
      simp [OracleConfig.try_from, OracleContractParameters.try_from,
        PoolContractParameters.try_from, RefreshContractParameters.try_from,
        UpdateContractParameters.try_from, BallotContractParameters.try_from,
        AddressesWithNet.try_from, unchecked_parse_network_address_from_str,
        parse_address_from_str, Except.mapError, bind, Except.bind, pure,
        Except.pure, Functor.map, Except.map, h1, h2, h3, h4, h5, h6, h7, h8]
    rcases h with ⟨c, hc⟩ | hc <;> rw [hres] at hc <;> simp at hc
  | encoded a8 =>
    simp [AddrStr.isMalformed, h1, h2, h3, h4, h5, h6, h7, h8]

/-- Claim C3: a configuration with at least one address string that
fails to decode is rejected with an address-decode error; the network
comparison, and hence NetworkPrefixesDiffer, is only reachable after
all eight decodes succeed. -/
theorem try_from_decode_error_precedence (cfg : OracleConfigSerde)
    (h : cfg.oracle_contract_parameters.p2s.isMalformed = true ∨
         cfg.pool_contract_parameters.p2s.isMalformed = true ∨
         cfg.refresh_contract_parameters.p2s.isMalformed = true ∨
         cfg.update_contract_parameters.p2s.isMalformed = true ∨
         cfg.ballot_parameters.ballot_token_owner_address.isMalformed = true ∨
         cfg.ballot_parameters.contract_parameters.p2s.isMalformed = true ∨
         cfg.addresses.address_for_oracle_tokens.isMalformed = true ∨
         cfg.addresses.wallet_address_for_chain_transaction.isMalformed = true) :
    isDecodeFailure (OracleConfig.try_from cfg) = true := by
  cases htf : OracleConfig.try_from cfg with
  | ok c =>
    exfalso
    have hall := try_from_ok_or_diff_all_encoded cfg (Or.inl ⟨c, htf⟩)
    obtain ⟨g1, g2, g3, g4, g5, g6, g7, g8⟩ := hall
    rcases h with h | h | h | h | h | h | h | h <;> simp_all
  | error e =>
    cases e with
    | addressEncoder e' => rfl
    | networkPrefixesDiffer =>
      exfalso
      have hall := try_from_ok_or_diff_all_encoded cfg (Or.inr htf)
      obtain ⟨g1, g2, g3, g4, g5, g6, g7, g8⟩ := hall
      rcases h with h | h | h | h | h | h | h | h <;> simp_all

/-- Witness for C3: a configuration whose wallet address string is
malformed is rejected with an address-decode error. -/
theorem try_from_decode_error_precedence_witness :
    isDecodeFailure (OracleConfig.try_from
      { sampleSerde .mainnet with
        addresses := { address_for_oracle_tokens := .encoded ⟨⟨7⟩, .mainnet⟩
                       wallet_address_for_chain_transaction := .malformed 3 } }) = true :=
  try_from_decode_error_precedence _ (by decide)

/-- Claim C1 (amended): when all eight address fields decode but their
network tags are not all equal, conversion never succeeds; it fails
with NetworkPrefixesDiffer whenever the wallet address agrees with the
oracle-token address, and with an AddressEncoder (invalid network)
decode error when those two disagree, because the wallet address is
parsed with a checked parse against the oracle-token address's tag. -/
theorem try_from_mixed_nets_rejected (c0 : OracleConfigSerde)
    (a1 a2 a3 a4 a5 a6 a7 a8 : NetworkAddress)
    (hdiff : ¬ (a1.network = a5.network ∧ a2.network = a5.network ∧
                a3.network = a5.network ∧ a4.network = a5.network ∧
                a6.network = a5.network ∧ a7.network = a5.network ∧
                a8.network = a5.network)) :
    (a8.network = a7.network →
      OracleConfig.try_from (withEncodedAddrs c0 a1 a2 a3 a4 a5 a6 a7 a8) =
        .error .networkPrefixesDiffer) ∧
    (¬ a8.network = a7.network →
      OracleConfig.try_from (withEncodedAddrs c0 a1 a2 a3 a4 a5 a6 a7 a8) =
        .error (.addressEncoder .invalidNetwork)) := by
  constructor
  · intro h87
    simp only [h87] at hdiff
    have haddr : AddressesWithNet.try_from
        { address_for_oracle_tokens := .encoded a7,
          wallet_address_for_chain_transaction := .encoded a8 } =
        .ok ⟨⟨a7.address, a8.address⟩, a7.network⟩ := by
      simp [AddressesWithNet.try_from, unchecked_parse_network_address_from_str,
        parse_address_from_str, bind, Except.bind, pure, Except.pure, h87]
    simp only [withEncodedAddrs, OracleConfig.try_from, OracleContractParameters.try_from,
      PoolContractParameters.try_from, RefreshContractParameters.try_from,
      UpdateContractParameters.try_from, BallotContractParameters.try_from,
      unchecked_parse_network_address_from_str, Except.mapError, bind, Except.bind,
      pure, Except.pure, Functor.map, Except.map, haddr]
    split_ifs with hcond
    · exact (hdiff (by tauto)).elim
    · rfl
  · intro h87
    have haddr : AddressesWithNet.try_from
        { address_for_oracle_tokens := .encoded a7,
          wallet_address_for_chain_transaction := .encoded a8 } =
        .error .invalidNetwork := by
      simp [AddressesWithNet.try_from, unchecked_parse_network_address_from_str,
        parse_address_from_str, bind, Except.bind, pure, Except.pure, if_neg h87]
    simp only [withEncodedAddrs, OracleConfig.try_from, OracleContractParameters.try_from,
      PoolContractParameters.try_from, RefreshContractParameters.try_from,
      UpdateContractParameters.try_from, BallotContractParameters.try_from,
      unchecked_parse_network_address_from_str, Except.mapError, bind, Except.bind,
      pure, Except.pure, Functor.map, Except.map, haddr]

/-- Witness for C1: a configuration whose oracle contract p2s address
is encoded under testnet while the remaining seven addresses are under
mainnet is rejected with NetworkPrefixesDiffer. -/
theorem try_from_mixed_nets_rejected_witness :
    OracleConfig.try_from (withEncodedAddrs (sampleSerde .mainnet)
      ⟨⟨1⟩, .testnet⟩ ⟨⟨2⟩, .mainnet⟩ ⟨⟨3⟩, .mainnet⟩ ⟨⟨4⟩, .mainnet⟩
      ⟨⟨5⟩, .mainnet⟩ ⟨⟨6⟩, .mainnet⟩ ⟨⟨7⟩, .mainnet⟩ ⟨⟨8⟩, .mainnet⟩) =
      .error .networkPrefixesDiffer :=
  (try_from_mixed_nets_rejected (sampleSerde .mainnet) _ _ _ _ _ _ _ _ (by decide)).1 rfl

/-- Counterexample to C1 as stated: every one of the eight address
fields decodes (they are all well-formed encodings) and two of them
carry different network tags (the wallet address is testnet, the other
seven are mainnet), yet conversion fails with an AddressEncoder decode
error rather than NetworkPrefixesDiffer. -/
theorem try_from_mixed_nets_counterexample :
    OracleConfig.try_from (withEncodedAddrs (sampleSerde .mainnet)
      ⟨⟨1⟩, .mainnet⟩ ⟨⟨2⟩, .mainnet⟩ ⟨⟨3⟩, .mainnet⟩ ⟨⟨4⟩, .mainnet⟩
      ⟨⟨5⟩, .mainnet⟩ ⟨⟨6⟩, .mainnet⟩ ⟨⟨7⟩, .mainnet⟩ ⟨⟨8⟩, .testnet⟩) =
      .error (.addressEncoder .invalidNetwork) ∧
    (OracleConfig.try_from (withEncodedAddrs (sampleSerde .mainnet)
      ⟨⟨1⟩, .mainnet⟩ ⟨⟨2⟩, .mainnet⟩ ⟨⟨3⟩, .mainnet⟩ ⟨⟨4⟩, .mainnet⟩
      ⟨⟨5⟩, .mainnet⟩ ⟨⟨6⟩, .mainnet⟩ ⟨⟨7⟩, .mainnet⟩ ⟨⟨8⟩, .testnet⟩) =
      .error .networkPrefixesDiffer) = False :=
  ⟨rfl, eq_false (by decide)⟩

/-- The network check loop accepts exactly when every collected tag
equals the reference tag. -/
theorem checkAllNets_ok_iff (nets : List Network) (en : Network) :
    checkAllNets nets en = .ok () ↔ ∀ p ∈ nets, p = en := by
  induction nets with
  | nil => simp [checkAllNets, pure, Except.pure]
  | cons p rest ih =>
    by_cases hp : p = en
    · simp [checkAllNets, hp, ih]
    · simp [checkAllNets, hp]

/-- When some collected tag differs from the reference tag, the network
check loop fails with NetworkPrefixesDiffer. -/
theorem checkAllNets_not_ok (nets : List Network) (en : Network)
    (h : ¬ ∀ p ∈ nets, p = en) :
    checkAllNets nets en = .error .networkPrefixesDiffer := by
  induction nets with
  | nil => simp at h
  | cons p rest ih =>
    by_cases hp : p = en
    · simp only [checkAllNets, if_pos hp]
      apply ih
      intro hall
      apply h
      intro x hx
      rcases List.mem_cons.mp hx with h1 | h1
      · exact h1 ▸ hp
      · exact hall x h1
    · simp [checkAllNets, hp]

/-- A skipped (absent) bundle decodes to an absent result and a present
one to a present result. -/
theorem optTry_isSome {A B : Type} (f : A → Except AddressEncoderError (B × Network))
    (o : Option A) (r : Option (B × Network)) (h : optTry f o = .ok r) :
    r.isSome = o.isSome := by
  cases o with
  | none =>
    simp only [optTry, pure, Except.pure, Except.ok.injEq] at h
    simp [← h]
  | some q =>
    simp only [optTry, bind, Except.bind] at h
    cases hf : f q with
    | error e => rw [hf] at h; cases h
    | ok v =>
      rw [hf] at h
      simp only [pure, Except.pure, Except.ok.injEq] at h
      simp [← h]

/-- Claim C10: converting an update-bootstrap document against a
caller-supplied existing network tag decodes and checks only the
bundles actually present (absent ones are skipped and stay absent in
the result); on success every recovered tag, including the mandatory
addresses bundle's, equals the caller-supplied tag; and when every
decode succeeds but some recovered tag differs from the caller's, the
conversion fails with NetworkPrefixesDiffer — the reference tag is the
caller's, never one derived from the document. -/
theorem update_bootstrap_reference_net (c : UpdateBootstrapConfigSerde) (en : Network) :
    (∀ cfg, update_bootstrap_try_from c en = .ok cfg →
        (cfg.pool_contract_parameters.isSome = c.pool_contract_parameters.isSome ∧
         cfg.refresh_contract_parameters.isSome = c.refresh_contract_parameters.isSome ∧
         cfg.update_contract_parameters.isSome = c.update_contract_parameters.isSome) ∧
        (∀ q p n, c.pool_contract_parameters = some q →
            PoolContractParameters.try_from q = .ok (p, n) → n = en) ∧
        (∀ q p n, c.refresh_contract_parameters = some q →
            RefreshContractParameters.try_from q = .ok (p, n) → n = en) ∧
        (∀ q p n, c.update_contract_parameters = some q →
            UpdateContractParameters.try_from q = .ok (p, n) → n = en) ∧
        (∀ awp, AddressesWithNet.try_from c.addresses = .ok awp → awp.net = en)) ∧
    (∀ po ro uo awp,
        optTry PoolContractParameters.try_from c.pool_contract_parameters = .ok po →
        optTry RefreshContractParameters.try_from c.refresh_contract_parameters = .ok ro →
        optTry UpdateContractParameters.try_from c.update_contract_parameters = .ok uo →
        AddressesWithNet.try_from c.addresses = .ok awp →
        ¬ (∀ n ∈ (po.map Prod.snd).toList ++ (ro.map Prod.snd).toList ++
              (uo.map Prod.snd).toList ++ [awp.net], n = en) →
        update_bootstrap_try_from c en = .error .networkPrefixesDiffer) := by
  constructor
  · intro cfg hok
    cases hpo : optTry PoolContractParameters.try_from c.pool_contract_parameters with
    | error e =>
      simp only [update_bootstrap_try_from, hpo, Except.mapError, bind,
        Except.bind] at hok
      exact Except.noConfusion hok
    | ok po =>
    cases hro : optTry RefreshContractParameters.try_from c.refresh_contract_parameters with
    | error e =>
      simp only [update_bootstrap_try_from, hpo, hro, Except.mapError, bind,
        Except.bind] at hok
      exact Except.noConfusion hok
    | ok ro =>
    cases huo : optTry UpdateContractParameters.try_from c.update_contract_parameters with
    | error e =>
      simp only [update_bootstrap_try_from, hpo, hro, huo, Except.mapError, bind,
        Except.bind] at hok
      exact Except.noConfusion hok
    | ok uo =>
    cases hawp : AddressesWithNet.try_from c.addresses with
    | error e =>
      simp only [update_bootstrap_try_from, hpo, hro, huo, hawp, Except.mapError,
        bind, Except.bind] at hok
      exact Except.noConfusion hok
    | ok awp =>
    cases hchk : checkAllNets ((po.map Prod.snd).toList ++ (ro.map Prod.snd).toList ++
        (uo.map Prod.snd).toList ++ [awp.net]) en with
    | error e =>
      simp only [update_bootstrap_try_from, hpo, hro, huo, hawp, hchk,
        Except.mapError, bind, Except.bind] at hok
      exact Except.noConfusion hok
    | ok u =>
      cases u
      have hall := (checkAllNets_ok_iff _ en).mp hchk
      simp only [update_bootstrap_try_from, hpo, hro, huo, hawp, hchk,
        Except.mapError, bind, Except.bind, pure, Except.pure,
        Except.ok.injEq] at hok
      subst hok
      refine ⟨⟨?_, ?_, ?_⟩, ?_, ?_, ?_, ?_⟩
      · have h1 := optTry_isSome _ _ _ hpo
        rw [← h1]
        cases po <;> rfl
      · have h1 := optTry_isSome _ _ _ hro
        rw [← h1]
        cases ro <;> rfl
      · have h1 := optTry_isSome _ _ _ huo
        rw [← h1]
        cases uo <;> rfl
      · intro q p n hq hres
        rw [hq] at hpo
        simp only [optTry, bind, Except.bind, hres, pure, Except.pure,
          Except.ok.injEq] at hpo
        apply hall
        simp [← hpo]
      · intro q p n hq hres
        rw [hq] at hro
        simp only [optTry, bind, Except.bind, hres, pure, Except.pure,
          Except.ok.injEq] at hro
        apply hall
        simp [← hro]
      · intro q p n hq hres
        rw [hq] at huo
        simp only [optTry, bind, Except.bind, hres, pure, Except.pure,
          Except.ok.injEq] at huo
        apply hall
        simp [← huo]
      · intro awp' hawp'
        injection hawp' with h
        subst h
        apply hall
        simp
  · intro po ro uo awp hpo hro huo hawp hbad
    have hchk := checkAllNets_not_ok _ en hbad
    simp only [update_bootstrap_try_from, hpo, hro, huo, hawp, hchk, Except.mapError,
      bind, Except.bind, pure, Except.pure]

/-- Witness for C10: an update-bootstrap document whose only present
bundle and whose addresses are testnet, checked against an existing
mainnet pool, is rejected with NetworkPrefixesDiffer. -/
theorem update_bootstrap_reference_net_witness :
    update_bootstrap_try_from sampleUpdateSerde .mainnet =
      .error .networkPrefixesDiffer :=
  (update_bootstrap_reference_net sampleUpdateSerde .mainnet).2
    (some (⟨⟨11⟩, 2, 3⟩, .testnet)) none none ⟨⟨⟨7⟩, ⟨8⟩⟩, .testnet⟩
    rfl rfl rfl rfl (by decide)
